import Mathlib

/-!
Verification of the query-interpretation and aggregation engine of the
Real-Estate-Analysis chatbot.

The embedding follows the two source files:
  src/utils/data_processor.py  (class RealEstateDataProcessor)
  src/chatbot/views.py         (class ChatQueryView)

Modelling conventions:
  - A table is an ordered list of column names plus an ordered list of rows;
    a cell holds a string, a number, or null (pandas NaN).
  - Numbers are modelled as rationals.  The boundary comparisons the claims
    test (70, 40, 5, 0, percentages such as 10.0) are exactly representable
    in binary floating point, so rational arithmetic agrees with the float
    arithmetic of the source at every point a claim touches.
  - pandas mean/min/max skip null cells; groupby drops null keys; the year
    and metric cells that take part in aggregation are numeric cells.
  - Python display formatting (format specifiers of f-strings) is abstracted
    by toString; the narrative claims are about branch selection and list
    capping, not digit rendering.
-/

/-- A cell value: string, numeric, or null (pandas NaN). -/
inductive Value where
  | str : String → Value
  | num : ℚ → Value
  | null : Value
deriving DecidableEq

def Value.str? : Value → Option String
  | .str s => some s
  | _ => none

def Value.num? : Value → Option ℚ
  | .num q => some q
  | _ => none

/-- A row maps column names to cell values; absent columns read as null. -/
structure Row where
  cells : List (String × Value)
deriving DecidableEq

def Row.get (r : Row) (c : String) : Value :=
  (r.cells.lookup c).getD Value.null

/-- A table: ordered column names and ordered rows (pandas DataFrame after
the load-time normalization of column names). -/
structure Table where
  cols : List String
  rows : List Row
deriving DecidableEq

/-- Bool test that the first list occurs as a contiguous run inside the
second; embeds the Python substring operator (in). -/
def containsSeq (needle : List Char) : List Char → Bool
  | [] => needle.isEmpty
  | c :: rest => needle.isPrefixOf (c :: rest) || containsSeq needle rest

/-- Python substring containment (needle in hay). -/
def substrIn (needle hay : String) : Bool :=
  containsSeq needle.toList hay.toList

/-- data_processor.py lines 30, 37, 172: columns whose lower-cased name
contains area or location. -/
def areaCols (t : Table) : List String :=
  t.cols.filter (fun c => substrIn "area" c.toLower || substrIn "location" c.toLower)

/-- First area-role column if any (area_columns[0]). -/
def areaCol? (t : Table) : Option String :=
  (areaCols t).head?

/-- data_processor.py line 170 _get_area_column: first area column, or the
empty string when none exists. -/
def areaColStr (t : Table) : String :=
  (areaCol? t).getD ""

/-- Embeds df[area_col].str.lower() == area.lower() for one cell: a string
cell compares case-insensitively, a non-string cell never matches (the str
accessor yields NaN there). -/
def cellMatchesArea (v : Value) (area : String) : Bool :=
  match v with
  | .str s => s.toLower == area.toLower
  | _ => false

/-- data_processor.py lines 35-44 filter_by_area: no area column gives the
empty DataFrame, otherwise keep the rows whose area cell matches
case-insensitively. -/
def filterByArea (t : Table) (area : String) : Table :=
  match areaCol? t with
  | none => { cols := [], rows := [] }
  | some ac => { cols := t.cols, rows := t.rows.filter (fun r => cellMatchesArea (r.get ac) area) }

/-- data_processor.py lines 28-33 get_available_areas: distinct non-null
values of the first area column, sorted ascending.  The area column of this
dataset holds string cells; dropna removes the null cells. -/
def availableAreas (t : Table) : List String :=
  match areaCol? t with
  | none => []
  | some ac => ((t.rows.filterMap (fun r => (r.get ac).str?)).dedup).insertionSort (· ≤ ·)

/-- The numeric cells of a column, in row order (pandas skips NaN in
mean/min/max and groupby keys). -/
def colNums (rows : List Row) (c : String) : List ℚ :=
  rows.filterMap (fun r => (r.get c).num?)

/-- Mean of a list of rationals (pandas Series.mean over non-null cells). -/
def qMean (xs : List ℚ) : ℚ :=
  xs.sum / (xs.length : ℚ)

/-- Minimum of a list of rationals, none when empty (pandas Series.min). -/
def qMin? : List ℚ → Option ℚ
  | [] => none
  | x :: xs => some (xs.foldl min x)

/-- Maximum of a list of rationals, none when empty (pandas Series.max). -/
def qMax? : List ℚ → Option ℚ
  | [] => none
  | x :: xs => some (xs.foldl max x)

/-- Distinct values sorted ascending: the index of a pandas groupby, and
sorted(list(set)) of Python. -/
def sortedDistinct (l : List ℚ) : List ℚ :=
  l.dedup.insertionSort (· ≤ ·)

/-- Distinct integers sorted ascending (sorted(list(all_years))). -/
def sortedDistinctInt (l : List Int) : List Int :=
  l.dedup.insertionSort (· ≤ ·)

/-- Python int() on a float: truncation toward zero. -/
def truncInt (q : ℚ) : Int :=
  if 0 ≤ q then ⌊q⌋ else ⌈q⌉

/-- Round to the nearest integer, ties to even (Python round). -/
def roundHalfEven (q : ℚ) : Int :=
  let f := ⌊q⌋
  let r := q - (f : ℚ)
  if r < 1/2 then f
  else if 1/2 < r then f + 1
  else if f % 2 = 0 then f else f + 1

/-- Python round(x, 2): two decimal places. -/
def round2 (q : ℚ) : ℚ :=
  (roundHalfEven (q * 100) : ℚ) / 100

/-- Mean of the metric cells among the filtered rows of one year group
(groupby(year_col)[metric_col].mean() at key y). -/
def yearMean (rows : List Row) (yc mc : String) (y : ℚ) : ℚ :=
  qMean (colNums (rows.filter (fun r => (r.get yc).num? == some y)) mc)

/-- First column whose lower-cased name contains the token
(next((col for col in cols if tok in col.lower()), None)). -/
def findCol (cols : List String) (tok : String) : Option String :=
  cols.find? (fun c => substrIn tok c.toLower)

/-- The sorted distinct year keys of a row set (the index of
groupby(year_col) after sort). -/
def sortedYears (rows : List Row) (yc : String) : List ℚ :=
  sortedDistinct (colNums rows yc)

/-- A chart payload: err models the dicts carrying an error key with empty
labels and data; ok carries labels, data, title and type. -/
inductive ChartResult where
  | err : String → ChartResult
  | ok : List Int → List ℚ → String → String → ChartResult
deriving DecidableEq

/-- data_processor.py lines 46-68 get_price_trend. -/
def getPriceTrend (t : Table) (area : String) : ChartResult :=
  let filtered := filterByArea t area
  if filtered.rows.isEmpty then
    .err ("No data found for " ++ area)
  else
    match findCol filtered.cols "year", findCol filtered.cols "price" with
    | some yc, some pc =>
      let ys := sortedYears filtered.rows yc
      .ok (ys.map truncInt) (ys.map (fun y => round2 (yearMean filtered.rows yc pc y)))
        ("Price Trend for " ++ area) "price"
    | _, _ => .err "Price or year data not available"

/-- data_processor.py lines 70-91 get_demand_trend. -/
def getDemandTrend (t : Table) (area : String) : ChartResult :=
  let filtered := filterByArea t area
  if filtered.rows.isEmpty then
    .err ("No data found for " ++ area)
  else
    match findCol filtered.cols "year", findCol filtered.cols "demand" with
    | some yc, some dc =>
      let ys := sortedYears filtered.rows yc
      .ok (ys.map truncInt) (ys.map (fun y => round2 (yearMean filtered.rows yc dc y)))
        ("Demand Trend for " ++ area) "demand"
    | _, _ => .err "Demand or year data not available"

/-- Python str.capitalize(): first character upper-cased, the rest
lower-cased. -/
def capitalizePy (s : String) : String :=
  match s.toList with
  | [] => ""
  | c :: cs => String.mk (c.toUpper :: cs.map Char.toLower)

/-- One labeled data series of a comparison chart. -/
structure Dataset where
  label : String
  data : List ℚ
deriving DecidableEq

/-- The comparison chart payload of compare_areas. -/
structure ComparisonResult where
  labels : List Int
  datasets : List Dataset
  title : String
deriving DecidableEq

/-- The distinct sorted years of one area, as Python ints
([int(y) for y in trend[year_col]]). -/
def areaYearLabels (t : Table) (a yc : String) : List Int :=
  (sortedYears (filterByArea t a).rows yc).map truncInt

/-- data_processor.py lines 93-124 compare_areas: missing year or metric
column returns the empty result with its title; otherwise every area whose
filter is non-empty contributes one dataset of per-year rounded means over
its own years, and the labels are the sorted union of all contributed
years. -/
def compareAreas (t : Table) (areas : List String) (metric : String) : ComparisonResult :=
  let title := capitalizePy metric ++ " Comparison"
  match findCol t.cols "year", findCol t.cols metric.toLower with
  | some yc, some mc =>
    let incl := areas.filter (fun a => !(filterByArea t a).rows.isEmpty)
    { labels := sortedDistinctInt ((incl.map (fun a => areaYearLabels t a yc)).flatten)
      datasets := incl.map (fun a =>
        { label := a
          data := (sortedYears (filterByArea t a).rows yc).map
            (fun y => round2 (yearMean (filterByArea t a).rows yc mc y)) })
      title := title }
  | _, _ => { labels := [], datasets := [], title := title }

/-- The summary-statistics record of get_summary_stats; absent optional
fields model keys the source never writes.  years_analyzed keeps the two
int year endpoints of the formatted range string. -/
structure SummaryStats where
  area : String
  total_records : Nat
  avg_price : Option ℚ
  min_price : Option ℚ
  max_price : Option ℚ
  price_growth_pct : Option ℚ
  years_analyzed : Option (Int × Int)
  avg_demand : Option ℚ
  min_demand : Option ℚ
  max_demand : Option ℚ
  avg_size : Option ℚ
deriving DecidableEq

/-- Outcome of get_summary_stats: the error dict or the stats dict. -/
inductive StatsResult where
  | err : String → StatsResult
  | ok : SummaryStats → StatsResult
deriving DecidableEq

/-- data_processor.py line 141: the size column predicate.  Python operator
precedence reads it as
  (size in col) or ((area in col) and col != area_column). -/
def sizeColOf (t : Table) : Option String :=
  t.cols.find? (fun c =>
    substrIn "size" c.toLower || (substrIn "area" c.toLower && c != areaColStr t))

/-- data_processor.py lines 150-156: the growth computation of
get_summary_stats.  Present only when both price and year columns resolved
and more than one distinct year exists; the value is
((last year mean - first year mean) / first year mean) * 100 over the
sorted distinct years, together with the int year endpoints. -/
def growthCore (rows : List Row) (p y : String) : Option (ℚ × Int × Int) :=
  if 1 < (sortedYears rows y).length then
    match (sortedYears rows y).head?, (sortedYears rows y).getLast? with
    | some y0, some y1 =>
      some (((yearMean rows y p y1 - yearMean rows y p y0) / yearMean rows y p y0) * 100,
        truncInt y0, truncInt y1)
    | _, _ => none
  else none

/-- Dispatch of the growth computation on the resolved columns. -/
def growthInfoOf (rows : List Row) (pc yc : Option String) : Option (ℚ × Int × Int) :=
  match pc, yc with
  | some p, some y => growthCore rows p y
  | _, _ => none

/-- data_processor.py lines 126-168 get_summary_stats. -/
def getSummaryStats (t : Table) (area : String) : StatsResult :=
  let filtered := filterByArea t area
  if filtered.rows.isEmpty then
    .err ("No data found for " ++ area)
  else
    let pc := findCol filtered.cols "price"
    let dc := findCol filtered.cols "demand"
    let sc := sizeColOf t
    let yc := findCol filtered.cols "year"
    let growthInfo := growthInfoOf filtered.rows pc yc
    .ok {
      area := area
      total_records := filtered.rows.length
      avg_price := pc.map (fun p => qMean (colNums filtered.rows p))
      min_price := pc.bind (fun p => qMin? (colNums filtered.rows p))
      max_price := pc.bind (fun p => qMax? (colNums filtered.rows p))
      price_growth_pct := growthInfo.map (fun g => g.1)
      years_analyzed := growthInfo.map (fun g => g.2)
      avg_demand := dc.map (fun c => qMean (colNums filtered.rows c))
      min_demand := dc.bind (fun c => qMin? (colNums filtered.rows c))
      max_demand := dc.bind (fun c => qMax? (colNums filtered.rows c))
      avg_size := sc.map (fun c => qMean (colNums filtered.rows c)) }

/-- data_processor.py line 219: the demand tier of the narrative demand
section, High above 70 strictly, Moderate above 40 strictly, else Low. -/
def demandLevel (d : ℚ) : String :=
  if d > 70 then "High" else if d > 40 then "Moderate" else "Low"

/-- The three framings of the insights section. -/
inductive GrowthFraming where
  | strong
  | steady
  | decline
deriving DecidableEq

/-- data_processor.py lines 232-238: the insights branch on
price_growth_pct, strong above 5 strictly, steady above 0 strictly, else
the decline message. -/
def growthFraming (g : ℚ) : GrowthFraming :=
  if g > 5 then .strong else if g > 0 then .steady else .decline

/-- The suggestion list of the error narrative:
self.get_available_areas()[:5]. -/
def suggestionList (t : Table) : List String :=
  (availableAreas t).take 5

/-- data_processor.py line 191: the error narrative rendered when stats
carry the error key. -/
def errorNarrative (t : Table) (area : String) : String :=
  "I couldn\x27t find any data for **" ++ area ++
    "**. Please check the spelling or try another area.\n\nAvailable areas: " ++
    String.intercalate ", " (suggestionList t) ++ "..."

/-- data_processor.py lines 188-246 generate_summary, with numeric display
formatting abstracted by toString.  Branch structure and boundary tests
follow the source through demandLevel and growthFraming. -/
def generateSummary (t : Table) (area : String) (stats : StatsResult) : String :=
  match stats with
  | .err _ => errorNarrative t area
  | .ok s =>
    let headline := "# Real Estate Analysis for " ++ area ++ "\n\n" ++
      "**Analysis based on " ++ toString s.total_records ++ " records**" ++
      (match s.years_analyzed with
       | some yr => " (" ++ toString yr.1 ++ "-" ++ toString yr.2 ++ ")"
       | none => "") ++ "\n\n"
    let priceSec :=
      match s.avg_price with
      | none => ""
      | some ap =>
        "## Price Analysis\n" ++
        "- **Average Price:** " ++ toString ap ++ "\n" ++
        "- **Price Range:** " ++ toString s.min_price ++ " - " ++ toString s.max_price ++ "\n" ++
        (match s.price_growth_pct with
         | some g =>
           let w := if g > 0 then "increased" else if g < 0 then "decreased" else "remained stable"
           "- **Growth Trend:** Prices have " ++ w ++ " by **" ++ toString |g| ++ "%**\n"
         | none => "") ++ "\n"
    let demandSec :=
      match s.avg_demand with
      | none => ""
      | some ad =>
        "## Demand Analysis\n" ++
        "- **Demand Level:** " ++ demandLevel ad ++ " (Index: " ++ toString ad ++ ")\n" ++
        "- **Demand Range:** " ++ toString s.min_demand ++ " - " ++ toString s.max_demand ++ "\n\n"
    let sizeSec :=
      match s.avg_size with
      | none => ""
      | some az => "**Average Property Size:** " ++ toString az ++ " sq ft\n\n"
    let insightGrowth :=
      match s.price_growth_pct with
      | none => ""
      | some g =>
        match growthFraming g with
        | .strong => "**" ++ area ++ "** shows strong growth potential with " ++
            toString g ++ "% price appreciation.\n"
        | .steady => "**" ++ area ++ "** shows steady growth with " ++
            toString g ++ "% price increase.\n"
        | .decline => "**" ++ area ++ "** has experienced a price decline of " ++
            toString |g| ++ "%.\n"
    let insightDemand :=
      match s.avg_demand with
      | none => ""
      | some ad =>
        if ad > 70 then "High demand indicates strong market activity and investment interest.\n"
        else if ad > 40 then "Moderate demand suggests stable market conditions.\n"
        else ""
    headline ++ priceSec ++ demandSec ++ sizeSec ++ "## Key Insights\n" ++
      insightGrowth ++ insightDemand

/-- Shorthand row constructor for concrete tables. -/
def mkRow (l : List (String × Value)) : Row := ⟨l⟩

/-- A small concrete dataset in the shape the chatbot expects. -/
def sampleTable : Table :=
  { cols := ["area", "year", "price", "demand"]
    rows :=
      [ mkRow [("area", .str "Wakad"), ("year", .num 2020), ("price", .num 100), ("demand", .num 60)]
      , mkRow [("area", .str "Wakad"), ("year", .num 2021), ("price", .num 110), ("demand", .num 80)]
      , mkRow [("area", .str "Aundh"), ("year", .num 2021), ("price", .num 200), ("demand", .num 30)]
      , mkRow [("area", .str "Aundh"), ("year", .num 2022), ("price", .num 220), ("demand", .num 45)] ] }

/-- A table whose only area-like column also contains the size token. -/
def overlapTable : Table :=
  { cols := ["area_size", "year", "price"]
    rows := [ mkRow [("area_size", .str "Wakad"), ("year", .num 2020), ("price", .num 100)] ] }

/-- A table where the size role resolves through the area token on a column
different from the area column. -/
def carpetTable : Table :=
  { cols := ["location", "carpet_area", "year"]
    rows := [ mkRow [("location", .str "Wakad"), ("carpet_area", .num 900), ("year", .num 2020)] ] }

/-- A table with no year column. -/
def noYearTable : Table :=
  { cols := ["area", "price"]
    rows := [ mkRow [("area", .str "Wakad"), ("price", .num 100)] ] }

/-- A table with no area or location column. -/
def noAreaTable : Table :=
  { cols := ["year", "price"]
    rows := [ mkRow [("year", .num 2020), ("price", .num 100)] ] }

/-- The four intents of views.py. -/
inductive Intent where
  | compare
  | demand
  | price
  | analysis
deriving DecidableEq

def compareKeywords : List String := ["compare", "comparison", "versus", "vs", "vs.", "compare to"]

def demandKeywords : List String := ["demand", "demands", "popularity"]

def priceKeywords : List String := ["price", "cost", "growth", "appreciation", "value"]

/-- views.py lines 63-90 _parse_query, intent part: lower-case the query,
then the first keyword tier with a substring hit wins, default analysis. -/
def parseIntent (q : String) : Intent :=
  let ql := q.toLower
  if compareKeywords.any (fun w => substrIn w ql) then .compare
  else if demandKeywords.any (fun w => substrIn w ql) then .demand
  else if priceKeywords.any (fun w => substrIn w ql) then .price
  else .analysis


/-- Projection of the growth field out of a stats outcome. -/
def growthOf : StatsResult → Option ℚ
  | .err _ => none
  | .ok s => s.price_growth_pct

/-! Helper lemmas about the sorted-distinct operation. -/

theorem mem_sortedDistinct {l : List ℚ} {x : ℚ} : x ∈ sortedDistinct l ↔ x ∈ l := by
  unfold sortedDistinct
  rw [List.mem_insertionSort, List.mem_dedup]

theorem sorted_sortedDistinct (l : List ℚ) : (sortedDistinct l).Sorted (· ≤ ·) :=
  List.sorted_insertionSort _ _

theorem length_sortedDistinct (l : List ℚ) : (sortedDistinct l).length = l.dedup.length :=
  (List.perm_insertionSort _ _).length_eq

theorem sorted_le_getLast {l : List ℚ} (h : l.Sorted (· ≤ ·)) (hne : l ≠ []) :
    ∀ b ∈ l, b ≤ l.getLast hne := by
  induction l with
  | nil => exact absurd rfl hne
  | cons x xs ih =>
    intro b hb
    rcases List.mem_cons.mp hb with rfl | hb
    · cases xs with
      | nil => simp [List.getLast]
      | cons y ys =>
        rw [List.getLast_cons (by simp)]
        exact List.rel_of_sorted_cons h _ (List.getLast_mem _)
    · cases xs with
      | nil => simp at hb
      | cons y ys =>
        rw [List.getLast_cons (by simp)]
        exact ih h.of_cons (by simp) b hb

/-- C1 counterexample: the source classifies an average demand index of
exactly 70 as Moderate, not High, and exactly 40 as Low, not Moderate,
because line 219 compares with strict greater-than. -/
theorem C1_counterexample :
    demandLevel 70 = "Moderate" ∧ demandLevel 70 ≠ "High" ∧
    demandLevel 40 = "Low" ∧ demandLevel 40 ≠ "Moderate" := by
  refine ⟨by decide, by decide, by decide, by decide⟩

/-- C1 (amended): the demand level of the narrative demand section uses 70
and 40 as strict (exclusive) lower bounds: High exactly when 70 < d,
Moderate exactly when 40 < d and d is at most 70, Low exactly when d is at
most 40. -/
theorem C1_demand_tiers (d : ℚ) :
    (demandLevel d = "High" ↔ 70 < d) ∧
    (demandLevel d = "Moderate" ↔ 40 < d ∧ d ≤ 70) ∧
    (demandLevel d = "Low" ↔ d ≤ 40) := by
  unfold demandLevel
  split_ifs with h1 h2
  · refine ⟨⟨fun _ => h1, fun _ => rfl⟩, ⟨fun h => absurd h (by decide), ?_⟩,
      ⟨fun h => absurd h (by decide), fun h => absurd h1 (not_lt.mpr (by linarith))⟩⟩
    rintro ⟨-, h⟩
    exact absurd h1 (not_lt.mpr h)
  · refine ⟨⟨fun h => absurd h (by decide), fun h => absurd h h1⟩,
      ⟨fun _ => ⟨h2, not_lt.mp h1⟩, fun _ => rfl⟩,
      ⟨fun h => absurd h (by decide), fun h => absurd h2 (not_lt.mpr h)⟩⟩
  · refine ⟨⟨fun h => absurd h (by decide), fun h => absurd h h1⟩,
      ⟨fun h => absurd h (by decide), ?_⟩,
      ⟨fun _ => not_lt.mp h2, fun _ => rfl⟩⟩
    rintro ⟨h, -⟩
    exact absurd h h2

/-- C2 counterexample: a price growth of exactly 0 percent satisfies the
claimed steady band (0 to 5 inclusive) yet the insights section renders the
decline message, because line 235 compares with strict greater-than. -/
theorem C2_counterexample :
    (0:ℚ) ≤ 0 ∧ (0:ℚ) ≤ 5 ∧ growthFraming 0 = .decline ∧ growthFraming 0 ≠ .steady := by
  refine ⟨by decide, by decide, by decide, by decide⟩

/-- C2 (amended): the insights section frames growth as strong exactly when
5 < g, as steady exactly when 0 < g and g is at most 5 (so g = 5.00 is
steady, not strong), and renders the decline message exactly when g is at
most 0 (a growth of exactly 0 falls in the decline branch). -/
theorem C2_growth_tiers (g : ℚ) :
    (growthFraming g = .strong ↔ 5 < g) ∧
    (growthFraming g = .steady ↔ 0 < g ∧ g ≤ 5) ∧
    (growthFraming g = .decline ↔ g ≤ 0) := by
  unfold growthFraming
  split_ifs with h1 h2
  · refine ⟨⟨fun _ => h1, fun _ => rfl⟩, ⟨fun h => absurd h (by decide), ?_⟩,
      ⟨fun h => absurd h (by decide), fun h => absurd h1 (not_lt.mpr (by linarith))⟩⟩
    rintro ⟨-, h⟩
    exact absurd h1 (not_lt.mpr h)
  · refine ⟨⟨fun h => absurd h (by decide), fun h => absurd h h1⟩,
      ⟨fun _ => ⟨h2, not_lt.mp h1⟩, fun _ => rfl⟩,
      ⟨fun h => absurd h (by decide), fun h => absurd h2 (not_lt.mpr h)⟩⟩
  · refine ⟨⟨fun h => absurd h (by decide), fun h => absurd h h1⟩,
      ⟨fun h => absurd h (by decide), ?_⟩,
      ⟨fun _ => not_lt.mp h2, fun _ => rfl⟩⟩
    rintro ⟨h, -⟩
    exact absurd h h2

/-- C4: intent classification lower-cases the query and tests the keyword
sets as substrings in strict precedence compare, then demand, then price,
with generic analysis as the default; only the first matching tier wins. -/
theorem C4_intent_precedence (q : String) :
    (parseIntent q = .compare ↔ ∃ w ∈ compareKeywords, substrIn w q.toLower = true) ∧
    (parseIntent q = .demand ↔
      ((¬ ∃ w ∈ compareKeywords, substrIn w q.toLower = true) ∧
        ∃ w ∈ demandKeywords, substrIn w q.toLower = true)) ∧
    (parseIntent q = .price ↔
      ((¬ ∃ w ∈ compareKeywords, substrIn w q.toLower = true) ∧
        (¬ ∃ w ∈ demandKeywords, substrIn w q.toLower = true) ∧
        ∃ w ∈ priceKeywords, substrIn w q.toLower = true)) ∧
    (parseIntent q = .analysis ↔
      ((¬ ∃ w ∈ compareKeywords, substrIn w q.toLower = true) ∧
        (¬ ∃ w ∈ demandKeywords, substrIn w q.toLower = true) ∧
        (¬ ∃ w ∈ priceKeywords, substrIn w q.toLower = true))) := by
  unfold parseIntent
  simp only [List.any_eq_true]
  split_ifs with h1 h2 h3 <;> simp_all

/-- C4 witness: a concrete query containing both a compare keyword and a
price keyword classifies as compare. -/
theorem C4_witness :
    parseIntent "Compare the price of Wakad vs Aundh" = .compare :=
  (C4_intent_precedence "Compare the price of Wakad vs Aundh").1.mpr
    ⟨"compare", by decide, by with_unfolding_all rfl⟩

/-- C6 counterexample: in a table whose only area-like column is named
area_size, line 141 resolves that same column for the size role (the size
token matches it before the exclusion clause is consulted, because the
Python expression parses as size-token or (area-token and excluded)), so
the column is double-assigned as both area and size. -/
theorem C6_counterexample :
    areaCol? overlapTable = some "area_size" ∧ sizeColOf overlapTable = some "area_size" :=
  ⟨by with_unfolding_all rfl, by with_unfolding_all rfl⟩

/-- C6 (amended): the exclusion of the area column only guards the
area-token branch of the size predicate: whenever the resolved size column
does not contain the size token (so it matched through the area token), it
is distinct from the column resolved for the area role; a column containing
the size token may coincide with the area column and is then
double-assigned. -/
theorem C6_area_token_excluded (t : Table) (sc : String)
    (hs : sizeColOf t = some sc)
    (hnosize : substrIn "size" sc.toLower = false) :
    ∀ ac, areaCol? t = some ac → sc ≠ ac := by
  intro ac hac
  have hp := List.find?_some hs
  rw [hnosize] at hp
  simp only [Bool.false_or, Bool.and_eq_true] at hp
  have hne : sc ≠ areaColStr t := bne_iff_ne.mp hp.2
  have : areaColStr t = ac := by
    unfold areaColStr
    rw [hac]
    rfl
  rw [this] at hne
  exact hne

/-- C6 witness: with columns location, carpet_area, year the size role
resolves carpet_area through the area token and it differs from the area
column location. -/
theorem C6_witness :
    sizeColOf carpetTable = some "carpet_area" ∧
    areaCol? carpetTable = some "location" ∧
    "carpet_area" ≠ "location" :=
  ⟨by with_unfolding_all rfl, by with_unfolding_all rfl,
    C6_area_token_excluded carpetTable "carpet_area" (by with_unfolding_all rfl)
      (by with_unfolding_all rfl) "location" (by with_unfolding_all rfl)⟩

/-- C7: filtering by an area keeps exactly the rows whose area cell matches
case-insensitively, is idempotent, and degrades to the empty row sequence
(never an error) when no area column is resolvable. -/
theorem C7_filter_props (t : Table) (a : String) :
    (∀ ac, areaCol? t = some ac →
      ∀ r, r ∈ (filterByArea t a).rows ↔ r ∈ t.rows ∧ cellMatchesArea (r.get ac) a = true) ∧
    filterByArea (filterByArea t a) a = filterByArea t a ∧
    (areaCol? t = none → (filterByArea t a).rows = []) := by
  refine ⟨?_, ?_, ?_⟩
  · intro ac hac r
    unfold filterByArea
    rw [hac]
    simp [List.mem_filter]
  · cases hac : areaCol? t with
    | none =>
      have h1 : filterByArea t a = { cols := [], rows := [] } := by
        unfold filterByArea
        rw [hac]
      rw [h1]
      unfold filterByArea
      rfl
    | some ac =>
      have h1 : filterByArea t a =
          Table.mk t.cols (t.rows.filter (fun r => cellMatchesArea (r.get ac) a)) := by
        unfold filterByArea
        rw [hac]
      rw [h1]
      unfold filterByArea
      have h2 : areaCol?
          (Table.mk t.cols (t.rows.filter (fun r => cellMatchesArea (r.get ac) a))) = some ac := hac
      rw [h2]
      have h3 : (t.rows.filter (fun r => cellMatchesArea (r.get ac) a)).filter
          (fun r => cellMatchesArea (r.get ac) a) =
          t.rows.filter (fun r => cellMatchesArea (r.get ac) a) := by
        rw [List.filter_filter]
        simp
      exact congrArg (Table.mk t.cols) h3
  · intro hn
    unfold filterByArea
    rw [hn]

/-- C7 witness: in the sample table the first Wakad row is kept by the
lower-cased query wakad, and the filter is idempotent there. -/
theorem C7_witness :
    (mkRow [("area", .str "Wakad"), ("year", .num 2020), ("price", .num 100), ("demand", .num 60)] ∈
        (filterByArea sampleTable "wakad").rows ↔
      mkRow [("area", .str "Wakad"), ("year", .num 2020), ("price", .num 100), ("demand", .num 60)] ∈
          sampleTable.rows ∧
        cellMatchesArea
          ((mkRow [("area", .str "Wakad"), ("year", .num 2020), ("price", .num 100),
            ("demand", .num 60)]).get "area") "wakad" = true) ∧
    filterByArea (filterByArea sampleTable "wakad") "wakad" = filterByArea sampleTable "wakad" :=
  ⟨(C7_filter_props sampleTable "wakad").1 "area" (by with_unfolding_all rfl) _,
    (C7_filter_props sampleTable "wakad").2.1⟩

/-- C8: when the area filter yields no rows (also when the area column is
unresolvable) the summary statistics are the data-absent outcome, not an
exception, and rendering it produces the error narrative whose
available-areas suggestion list holds at most 5 entries. -/
theorem C8_no_data_outcome (t : Table) (a : String)
    (h : (filterByArea t a).rows = []) :
    getSummaryStats t a = .err ("No data found for " ++ a) ∧
    generateSummary t a (getSummaryStats t a) = errorNarrative t a ∧
    (suggestionList t).length ≤ 5 := by
  have h1 : getSummaryStats t a = .err ("No data found for " ++ a) := by
    simp only [getSummaryStats]
    rw [h]
    rfl
  refine ⟨h1, ?_, ?_⟩
  · rw [h1]
    rfl
  · unfold suggestionList
    simp [List.length_take]

/-- C8 witness: the sample table has no rows for the area Ghost, and its
suggestion list is within the cap. -/
theorem C8_witness :
    getSummaryStats sampleTable "Ghost" = .err ("No data found for " ++ "Ghost") ∧
    generateSummary sampleTable "Ghost" (getSummaryStats sampleTable "Ghost") =
      errorNarrative sampleTable "Ghost" ∧
    (suggestionList sampleTable).length ≤ 5 :=
  C8_no_data_outcome sampleTable "Ghost" (by with_unfolding_all rfl)

/-- C9: when no column name contains the year token, or none contains the
requested metric name, compare_areas returns a normal payload with empty
labels and datasets plus the capitalized comparison title, and never an
error marker. -/
theorem C9_compare_missing_cols (t : Table) (areas : List String) (metric : String)
    (h : (∀ c ∈ t.cols, substrIn "year" c.toLower = false) ∨
         (∀ c ∈ t.cols, substrIn metric.toLower c.toLower = false)) :
    compareAreas t areas metric =
      { labels := [], datasets := [], title := capitalizePy metric ++ " Comparison" } := by
  unfold compareAreas
  rcases h with h | h
  · have hy : findCol t.cols "year" = none := by
      unfold findCol
      rw [List.find?_eq_none]
      intro c hc
      simp [h c hc]
    rw [hy]
  · have hm : findCol t.cols metric.toLower = none := by
      unfold findCol
      rw [List.find?_eq_none]
      intro c hc
      simp [h c hc]
    rw [hm]
    cases findCol t.cols "year" <;> rfl

/-- C9 witness: a table whose columns are area and price has no year
column, so the comparison payload is empty but well-formed. -/
theorem C9_witness :
    compareAreas noYearTable ["Wakad"] "price" =
      { labels := [], datasets := [], title := capitalizePy "price" ++ " Comparison" } :=
  C9_compare_missing_cols noYearTable ["Wakad"] "price"
    (Or.inl (by intro c hc; fin_cases hc <;> with_unfolding_all rfl))

/-- Rounding to two decimals always produces a rational whose product with
100 is an integer. -/
theorem round2_den (q : ℚ) : (round2 q * 100).den = 1 := by
  unfold round2
  rw [div_mul_cancel₀ _ (by norm_num : (100:ℚ) ≠ 0)]
  exact Rat.den_intCast _

/-- C10: every data value a trend or comparison payload carries is the
2-decimal rounding, applied by the processor itself, of the per-year mean
(so times 100 it is an integer and callers never see the full-precision
mean), and every year label list is the int conversion of the year
values. -/
theorem C10_rounding (t : Table) (a : String) (areas : List String) (metric : String) :
    (∀ L D ti ty, getPriceTrend t a = .ok L D ti ty →
      ∃ yc pc, findCol (filterByArea t a).cols "year" = some yc ∧
        findCol (filterByArea t a).cols "price" = some pc ∧
        L = (sortedYears (filterByArea t a).rows yc).map truncInt ∧
        D = (sortedYears (filterByArea t a).rows yc).map
          (fun y => round2 (yearMean (filterByArea t a).rows yc pc y)) ∧
        ∀ v ∈ D, (v * 100).den = 1) ∧
    (∀ L D ti ty, getDemandTrend t a = .ok L D ti ty →
      ∃ yc dc, findCol (filterByArea t a).cols "year" = some yc ∧
        findCol (filterByArea t a).cols "demand" = some dc ∧
        L = (sortedYears (filterByArea t a).rows yc).map truncInt ∧
        D = (sortedYears (filterByArea t a).rows yc).map
          (fun y => round2 (yearMean (filterByArea t a).rows yc dc y)) ∧
        ∀ v ∈ D, (v * 100).den = 1) ∧
    (∀ d ∈ (compareAreas t areas metric).datasets, ∀ v ∈ d.data, (v * 100).den = 1) := by
  refine ⟨?_, ?_, ?_⟩
  · intro L D ti ty h
    simp only [getPriceTrend] at h
    split at h
    · exact absurd h (by simp)
    · split at h
      · rename_i yc pc hyc hpc
        obtain ⟨hL, hD, -, -⟩ := ChartResult.ok.inj h
        refine ⟨yc, pc, hyc, hpc, hL.symm, hD.symm, ?_⟩
        intro v hv
        rw [← hD] at hv
        obtain ⟨y, -, rfl⟩ := List.mem_map.mp hv
        exact round2_den _
      · exact absurd h (by simp)
  · intro L D ti ty h
    simp only [getDemandTrend] at h
    split at h
    · exact absurd h (by simp)
    · split at h
      · rename_i yc dc hyc hdc
        obtain ⟨hL, hD, -, -⟩ := ChartResult.ok.inj h
        refine ⟨yc, dc, hyc, hdc, hL.symm, hD.symm, ?_⟩
        intro v hv
        rw [← hD] at hv
        obtain ⟨y, -, rfl⟩ := List.mem_map.mp hv
        exact round2_den _
      · exact absurd h (by simp)
  · intro d hd v hv
    unfold compareAreas at hd
    split at hd
    · simp only [List.mem_map] at hd
      obtain ⟨a', -, rfl⟩ := hd
      obtain ⟨y, -, rfl⟩ := List.mem_map.mp hv
      exact round2_den _
    · simp at hd

/-- C10 witness: the Wakad price trend of the sample table is a success
payload, so its data values are 2-decimal and its labels int-converted. -/
theorem C10_witness :
    ∃ yc pc, findCol (filterByArea sampleTable "Wakad").cols "year" = some yc ∧
      findCol (filterByArea sampleTable "Wakad").cols "price" = some pc ∧
      [(2020:Int), 2021] = (sortedYears (filterByArea sampleTable "Wakad").rows yc).map truncInt ∧
      [(100:ℚ), 110] = (sortedYears (filterByArea sampleTable "Wakad").rows yc).map
        (fun y => round2 (yearMean (filterByArea sampleTable "Wakad").rows yc pc y)) ∧
      ∀ v ∈ [(100:ℚ), 110], (v * 100).den = 1 :=
  (C10_rounding sampleTable "Wakad" [] "price").1 [2020, 2021] [100, 110]
    "Price Trend for Wakad" "price"
    (by set_option maxRecDepth 40000 in with_unfolding_all rfl)

theorem getSummaryStats_eq_ok (t : Table) (a : String)
    (hne : (filterByArea t a).rows ≠ []) :
    getSummaryStats t a = .ok {
      area := a
      total_records := (filterByArea t a).rows.length
      avg_price := (findCol (filterByArea t a).cols "price").map
        (fun p => qMean (colNums (filterByArea t a).rows p))
      min_price := (findCol (filterByArea t a).cols "price").bind
        (fun p => qMin? (colNums (filterByArea t a).rows p))
      max_price := (findCol (filterByArea t a).cols "price").bind
        (fun p => qMax? (colNums (filterByArea t a).rows p))
      price_growth_pct := (growthInfoOf (filterByArea t a).rows
        (findCol (filterByArea t a).cols "price")
        (findCol (filterByArea t a).cols "year")).map (fun g => g.1)
      years_analyzed := (growthInfoOf (filterByArea t a).rows
        (findCol (filterByArea t a).cols "price")
        (findCol (filterByArea t a).cols "year")).map (fun g => g.2)
      avg_demand := (findCol (filterByArea t a).cols "demand").map
        (fun c => qMean (colNums (filterByArea t a).rows c))
      min_demand := (findCol (filterByArea t a).cols "demand").bind
        (fun c => qMin? (colNums (filterByArea t a).rows c))
      max_demand := (findCol (filterByArea t a).cols "demand").bind
        (fun c => qMax? (colNums (filterByArea t a).rows c))
      avg_size := (sizeColOf t).map
        (fun c => qMean (colNums (filterByArea t a).rows c)) } := by
  simp only [getSummaryStats]
  rw [List.isEmpty_eq_false.mpr hne]
  rfl

theorem growthInfoOf_len2 (rows : List Row) (p y : String)
    (h2 : 2 ≤ (colNums rows y).dedup.length) :
    ∃ y0 y1,
      y0 ∈ colNums rows y ∧ y1 ∈ colNums rows y ∧
      (∀ z ∈ colNums rows y, y0 ≤ z ∧ z ≤ y1) ∧
      growthInfoOf rows (some p) (some y) =
        some (((yearMean rows y p y1 - yearMean rows y p y0) / yearMean rows y p y0) * 100,
          truncInt y0, truncInt y1) := by
  have hlen : 1 < (sortedYears rows y).length := by
    unfold sortedYears
    rw [length_sortedDistinct]
    omega
  have hne : sortedYears rows y ≠ [] := by
    intro h
    rw [h] at hlen
    simp at hlen
  obtain ⟨y0, tail, hys⟩ : ∃ y0 tail, sortedYears rows y = y0 :: tail := by
    cases h : sortedYears rows y with
    | nil => exact absurd h hne
    | cons b l => exact ⟨b, l, rfl⟩
  have hsorted : (sortedYears rows y).Sorted (· ≤ ·) := sorted_sortedDistinct _
  have hhead : (sortedYears rows y).head? = some y0 := by
    rw [hys]
    rfl
  have hlast : (sortedYears rows y).getLast? = some ((sortedYears rows y).getLast hne) :=
    List.getLast?_eq_getLast _ hne
  have hmem : ∀ z : ℚ, z ∈ sortedYears rows y ↔ z ∈ colNums rows y := by
    intro z
    exact mem_sortedDistinct
  refine ⟨y0, (sortedYears rows y).getLast hne, ?_, ?_, ?_, ?_⟩
  · exact (hmem y0).mp (by rw [hys]; exact List.mem_cons_self y0 tail)
  · exact (hmem _).mp (List.getLast_mem hne)
  · intro z hz
    have hz' := (hmem z).mpr hz
    refine ⟨?_, sorted_le_getLast hsorted hne z hz'⟩
    rw [hys] at hz'
    rcases List.mem_cons.mp hz' with rfl | hzz
    · exact le_refl z
    · rw [hys] at hsorted
      exact List.rel_of_sorted_cons hsorted _ hzz
  · show growthCore rows p y = _
    unfold growthCore
    rw [if_pos hlen, hhead, hlast]

theorem growthInfoOf_short (rows : List Row) (p y : String)
    (h2 : (colNums rows y).dedup.length < 2) :
    growthInfoOf rows (some p) (some y) = none := by
  have hlen : ¬ 1 < (sortedYears rows y).length := by
    unfold sortedYears
    rw [length_sortedDistinct]
    omega
  show growthCore rows p y = none
  unfold growthCore
  rw [if_neg hlen]

/-- C5: when price and year columns resolve and at least 2 distinct years
are present in the filtered rows, the summary carries a price growth
percent equal to (lastYearMean - firstYearMean) / firstYearMean * 100 where
first and last are the minimal and maximal distinct years (the endpoints of
the ascending year order); with fewer than 2 distinct years the growth and
year-range fields are absent. -/
theorem C5_growth_percent (t : Table) (a p y : String)
    (hp : findCol (filterByArea t a).cols "price" = some p)
    (hy : findCol (filterByArea t a).cols "year" = some y)
    (hne : (filterByArea t a).rows ≠ []) :
    (2 ≤ (colNums (filterByArea t a).rows y).dedup.length →
      ∃ s y0 y1, getSummaryStats t a = .ok s ∧
        y0 ∈ colNums (filterByArea t a).rows y ∧
        y1 ∈ colNums (filterByArea t a).rows y ∧
        (∀ z ∈ colNums (filterByArea t a).rows y, y0 ≤ z ∧ z ≤ y1) ∧
        s.price_growth_pct =
          some ((yearMean (filterByArea t a).rows y p y1 -
              yearMean (filterByArea t a).rows y p y0) /
            yearMean (filterByArea t a).rows y p y0 * 100) ∧
        s.years_analyzed = some (truncInt y0, truncInt y1)) ∧
    ((colNums (filterByArea t a).rows y).dedup.length < 2 →
      ∃ s, getSummaryStats t a = .ok s ∧
        s.price_growth_pct = none ∧ s.years_analyzed = none) := by
  constructor
  · intro h2
    obtain ⟨y0, y1, hm0, hm1, hbound, hgi⟩ := growthInfoOf_len2 (filterByArea t a).rows p y h2
    refine ⟨_, y0, y1, getSummaryStats_eq_ok t a hne, hm0, hm1, hbound, ?_, ?_⟩
    · simp [hp, hy, hgi]
    · simp [hp, hy, hgi]
  · intro h2
    have hgi := growthInfoOf_short (filterByArea t a).rows p y h2
    refine ⟨_, getSummaryStats_eq_ok t a hne, ?_, ?_⟩
    · simp [hp, hy, hgi]
    · simp [hp, hy, hgi]

/-- C5 witness: the Wakad rows of the sample table span the two years 2020
and 2021 with mean prices 100 and 110, and the computed growth percent is
exactly 10. -/
theorem C5_witness :
    (∃ s y0 y1, getSummaryStats sampleTable "Wakad" = .ok s ∧
        y0 ∈ colNums (filterByArea sampleTable "Wakad").rows "year" ∧
        y1 ∈ colNums (filterByArea sampleTable "Wakad").rows "year" ∧
        (∀ z ∈ colNums (filterByArea sampleTable "Wakad").rows "year", y0 ≤ z ∧ z ≤ y1) ∧
        s.price_growth_pct =
          some ((yearMean (filterByArea sampleTable "Wakad").rows "year" "price" y1 -
              yearMean (filterByArea sampleTable "Wakad").rows "year" "price" y0) /
            yearMean (filterByArea sampleTable "Wakad").rows "year" "price" y0 * 100) ∧
        s.years_analyzed = some (truncInt y0, truncInt y1)) ∧
    growthOf (getSummaryStats sampleTable "Wakad") = some 10 :=
  ⟨(C5_growth_percent sampleTable "Wakad" "price" "year"
      (by with_unfolding_all rfl) (by with_unfolding_all rfl)
      (by with_unfolding_all decide)).1 (by with_unfolding_all decide),
    by set_option maxRecDepth 40000 in with_unfolding_all rfl⟩

theorem mem_sortedDistinctInt {l : List Int} {x : Int} : x ∈ sortedDistinctInt l ↔ x ∈ l := by
  unfold sortedDistinctInt
  rw [List.mem_insertionSort, List.mem_dedup]

theorem sorted_sortedDistinctInt (l : List Int) : (sortedDistinctInt l).Sorted (· ≤ ·) :=
  List.sorted_insertionSort _ _

theorem nodup_sortedDistinctInt (l : List Int) : (sortedDistinctInt l).Nodup :=
  (List.perm_insertionSort _ _).nodup_iff.mpr (List.nodup_dedup l)

/-- C3: with year and metric columns resolved, the comparison labels are
the ascending duplicate-free union of the distinct years of every compared
area having at least one row; areas with no rows contribute no dataset;
each dataset belongs to an included area in order and carries exactly one
value per that area's own distinct years. -/
theorem C3_compare_union (t : Table) (areas : List String) (metric : String) (yc mc : String)
    (hy : findCol t.cols "year" = some yc)
    (hm : findCol t.cols metric.toLower = some mc) :
    (compareAreas t areas metric).labels.Sorted (· ≤ ·) ∧
    (compareAreas t areas metric).labels.Nodup ∧
    (∀ n : Int, n ∈ (compareAreas t areas metric).labels ↔
      ∃ a ∈ areas, (filterByArea t a).rows ≠ [] ∧ n ∈ areaYearLabels t a yc) ∧
    ((compareAreas t areas metric).datasets.map Dataset.label =
      areas.filter (fun a => !(filterByArea t a).rows.isEmpty)) ∧
    (∀ d ∈ (compareAreas t areas metric).datasets,
      d.data.length = (areaYearLabels t d.label yc).length) := by
  have hc : compareAreas t areas metric =
      { labels := sortedDistinctInt ((List.map (fun a => areaYearLabels t a yc)
          (areas.filter (fun a => !(filterByArea t a).rows.isEmpty))).flatten)
        datasets := (areas.filter (fun a => !(filterByArea t a).rows.isEmpty)).map (fun a =>
          { label := a
            data := (sortedYears (filterByArea t a).rows yc).map
              (fun y => round2 (yearMean (filterByArea t a).rows yc mc y)) })
        title := capitalizePy metric ++ " Comparison" } := by
    unfold compareAreas
    rw [hy, hm]
  rw [hc]
  refine ⟨sorted_sortedDistinctInt _, nodup_sortedDistinctInt _, ?_, ?_, ?_⟩
  · intro n
    rw [mem_sortedDistinctInt, List.mem_flatten]
    constructor
    · rintro ⟨l, hl, hn⟩
      obtain ⟨a, ha, rfl⟩ := List.mem_map.mp hl
      have ha' := List.mem_filter.mp ha
      refine ⟨a, ha'.1, ?_, hn⟩
      have := ha'.2
      simp only [Bool.not_eq_eq_eq_not, Bool.not_true] at this
      exact (List.isEmpty_eq_false.mp (by simpa using this))
    · rintro ⟨a, ha, hrows, hn⟩
      refine ⟨areaYearLabels t a yc, ?_, hn⟩
      refine List.mem_map.mpr ⟨a, ?_, rfl⟩
      refine List.mem_filter.mpr ⟨ha, ?_⟩
      simp [List.isEmpty_eq_false.mpr hrows]
  · rw [List.map_map]
    exact List.map_id _
  · intro d hd
    obtain ⟨a, -, rfl⟩ := List.mem_map.mp hd
    unfold areaYearLabels
    simp

/-- C3 witness: in the sample table Wakad covers 2020-2021 and Aundh covers
2021-2022, an unknown area is skipped, and the labels are the sorted union
2020, 2021, 2022 with a two-value series per included area. -/
theorem C3_witness :
    ((compareAreas sampleTable ["Wakad", "Aundh", "Ghost"] "price").labels.Sorted (· ≤ ·) ∧
      (compareAreas sampleTable ["Wakad", "Aundh", "Ghost"] "price").labels.Nodup ∧
      (∀ n : Int, n ∈ (compareAreas sampleTable ["Wakad", "Aundh", "Ghost"] "price").labels ↔
        ∃ a ∈ ["Wakad", "Aundh", "Ghost"], (filterByArea sampleTable a).rows ≠ [] ∧
          n ∈ areaYearLabels sampleTable a "year") ∧
      ((compareAreas sampleTable ["Wakad", "Aundh", "Ghost"] "price").datasets.map Dataset.label =
        ["Wakad", "Aundh", "Ghost"].filter
          (fun a => !(filterByArea sampleTable a).rows.isEmpty)) ∧
      (∀ d ∈ (compareAreas sampleTable ["Wakad", "Aundh", "Ghost"] "price").datasets,
        d.data.length = (areaYearLabels sampleTable d.label "year").length)) ∧
    (compareAreas sampleTable ["Wakad", "Aundh", "Ghost"] "price").labels = [2020, 2021, 2022] :=
  ⟨C3_compare_union sampleTable ["Wakad", "Aundh", "Ghost"] "price" "year" "price"
      (by with_unfolding_all rfl) (by with_unfolding_all rfl),
    by set_option maxRecDepth 40000 in with_unfolding_all rfl⟩

/-- C1 witness: an index strictly above 70 classifies as High and the tier
characterization evaluates at concrete inputs. -/
theorem C1_witness : demandLevel 71 = "High" ∧ demandLevel 50 = "Moderate" :=
  ⟨(C1_demand_tiers 71).1.mpr (by norm_num),
    (C1_demand_tiers 50).2.1.mpr ⟨by norm_num, by norm_num⟩⟩

/-- C2 witness: a growth of exactly 5 percent is framed steady, not
strong. -/
theorem C2_witness : growthFraming 5 = .steady :=
  (C2_growth_tiers 5).2.1.mpr ⟨by norm_num, by norm_num⟩
